import Mathlib

/-!
Verification of the gateway session protocol engine of the `ackerman-qqbot`
crate (file `src/wss/mod.rs` and `src/wss/subscription_mask.rs`).

The Rust code is shallowly embedded: the wire format is modelled by a `Json`
value type, serde's derived (de)serializers for the envelope types are spelled
out as explicit encode/decode functions (untagged-union decoding tries the
variants in declaration order, `#[serde(default)]` fields fall back to the
field type's default when absent), and the async session methods
(`next_event`, `send_heartbeat`, `send_identify`) become pure step functions
from the session state and the received frame to the new state, an outcome
(`ok` / `err` for a returned `Err` / `panic` for `unreachable!` or an
uncovered match arm), and the list of transport actions attempted.
-/

/-- A JSON value, as far as this protocol needs it (integers only; the wire
format of this bot uses no fractional numbers). -/
inductive Json where
  | null : Json
  | bool (b : Bool) : Json
  | int (n : Int) : Json
  | str (s : String) : Json
  | arr (xs : List Json) : Json
  | obj (fields : List (String × Json)) : Json
deriving Repr

/-- Field lookup in a JSON object, first match wins. -/
def getField : List (String × Json) → String → Option Json
  | [], _ => none
  | (k, v) :: rest, key => if k = key then some v else getField rest key

/-- Deserialize a JSON value as a `u32` (serde rejects negatives and
out-of-range numbers). -/
def asU32 : Json → Option Nat
  | .int n => if 0 ≤ n ∧ n < 4294967296 then some n.toNat else none
  | _ => none

/-- Deserialize a JSON value as an `i32`. -/
def asI32 : Json → Option Int
  | .int n => if -2147483648 ≤ n ∧ n < 2147483648 then some n else none
  | _ => none

/-- Deserialize a JSON value as an `i64`. -/
def asI64 : Json → Option Int
  | .int n => if -9223372036854775808 ≤ n ∧ n < 9223372036854775808 then some n else none
  | _ => none

/-- Deserialize a JSON value as a `bool`. -/
def asBool : Json → Option Bool
  | .bool b => some b
  | _ => none

/-- Deserialize a JSON value as a `String`. -/
def asStr : Json → Option String
  | .str s => some s
  | _ => none

/-- Deserialize the elements of a JSON array as `u32`s, in order, failing if
any element fails (serde's sequence visitor). -/
def asU32Elems : List Json → Option (List Nat)
  | [] => some []
  | j :: rest => do
      let n ← asU32 j
      let ns ← asU32Elems rest
      some (n :: ns)

/-- Deserialize a JSON value as a `Vec<u32>`. -/
def asU32List : Json → Option (List Nat)
  | .arr xs => asU32Elems xs
  | _ => none

/-- A struct field with `#[serde(default)]`: absent means the field type's
default, present means it must deserialize. -/
def fieldD (fields : List (String × Json)) (key : String)
    (dec : Json → Option α) (dflt : α) : Option α :=
  match getField fields key with
  | none => some dflt
  | some j => dec j

/-- `struct User { id: String, username: String, bot: bool }` -/
structure User where
  id : String
  username : String
  bot : Bool
deriving Repr, DecidableEq

/-- `#[derive(Default)]` on `User`. -/
instance : Inhabited User := ⟨⟨"", "", false⟩⟩

/-- `struct QQBotOperationDispatch` with its seven fields (`u32` as `Nat`,
`i64` as `Int`, `Vec<u32>` as `List Nat`). -/
structure QQBotOperationDispatch where
  token : String
  intents : Nat
  shard : List Nat
  heartbeat_interval : Nat
  version : Int
  session_id : String
  user : User
deriving Repr, DecidableEq

/-- `impl Default for QQBotOperationDispatch`: empty token, intents 0, empty
shard, heartbeat_interval 40000, version 0, empty session id, default user. -/
instance : Inhabited QQBotOperationDispatch := ⟨⟨"", 0, [], 40000, 0, "", default⟩⟩

/-- `enum QQBotOperationUnion { Dispatch(..), Boolean(bool), Integer(i32) }`,
an untagged serde union. -/
inductive QQBotOperationUnion where
  | Dispatch (d : QQBotOperationDispatch) : QQBotOperationUnion
  | Boolean (b : Bool) : QQBotOperationUnion
  | Integer (n : Int) : QQBotOperationUnion
deriving Repr, DecidableEq

/-- `struct QQBotOperation { op: u32, s: u32, t: String, d: QQBotOperationUnion }`
(`s` and `t` carry `#[serde(default)]`). -/
structure QQBotOperation where
  op : Nat
  s : Nat
  t : String
  d : QQBotOperationUnion
deriving Repr, DecidableEq

/-- `QQBotOperation::dispatched`. The source's `match` covers only the
`Dispatch` and `Boolean` variants; the `Integer` variant is not covered, so
that branch is a failure (`none`), not a value. -/
def QQBotOperation.dispatched (o : QQBotOperation) : Option QQBotOperationDispatch :=
  match o.d with
  | .Dispatch d => some d
  | .Boolean _ => some default
  | .Integer _ => none

/-- Derived serde deserializer for `User` (no field defaults: all three
fields are required). -/
def decodeUser : Json → Option User
  | .obj fields => do
      let idJ ← getField fields "id"
      let id ← asStr idJ
      let usernameJ ← getField fields "username"
      let username ← asStr usernameJ
      let botJ ← getField fields "bot"
      let bot ← asBool botJ
      some ⟨id, username, bot⟩
  | _ => none

/-- Derived serde deserializer for `QQBotOperationDispatch`: every field has
`#[serde(default)]`, so an absent field falls back to the field type's
default (note: `heartbeat_interval` defaults to `u32::default() = 0` here,
not to the struct-level default 40000). -/
def decodeDispatch : Json → Option QQBotOperationDispatch
  | .obj fields => do
      let token ← fieldD fields "token" asStr ""
      let intents ← fieldD fields "intents" asU32 0
      let shard ← fieldD fields "shard" asU32List []
      let heartbeat_interval ← fieldD fields "heartbeat_interval" asU32 0
      let version ← fieldD fields "version" asI64 0
      let session_id ← fieldD fields "session_id" asStr ""
      let user ← fieldD fields "user" decodeUser default
      some ⟨token, intents, shard, heartbeat_interval, version, session_id, user⟩
  | _ => none

/-- Derived serde deserializer for the untagged `QQBotOperationUnion`: try
`Dispatch`, then `Boolean`, then `Integer`, in declaration order, and accept
the first variant that type-checks. -/
def decodeUnion (j : Json) : Option QQBotOperationUnion :=
  match decodeDispatch j with
  | some d => some (.Dispatch d)
  | none =>
    match asBool j with
    | some b => some (.Boolean b)
    | none =>
      match asI32 j with
      | some n => some (.Integer n)
      | none => none

/-- Derived serde deserializer for `QQBotOperation`: `op` and `d` are
required, `s` and `t` default to `0` and `""`. -/
def decodeOperation : Json → Option QQBotOperation
  | .obj fields => do
      let opJ ← getField fields "op"
      let op ← asU32 opJ
      let s ← fieldD fields "s" asU32 0
      let t ← fieldD fields "t" asStr ""
      let dJ ← getField fields "d"
      let d ← decodeUnion dJ
      some ⟨op, s, t, d⟩
  | _ => none

/-- Serialize a `Vec<u32>` as a JSON array of integers. -/
def encodeU32List (l : List Nat) : Json :=
  .arr (l.map fun (n : Nat) => .int (Int.ofNat n))

/-- Derived serde serializer for `User`. -/
def encodeUser (u : User) : Json :=
  .obj [("id", .str u.id), ("username", .str u.username), ("bot", .bool u.bot)]

/-- Derived serde serializer for `QQBotOperationDispatch` (fields in
declaration order; `#[serde(default)]` does not suppress serialization). -/
def encodeDispatch (d : QQBotOperationDispatch) : Json :=
  .obj [("token", .str d.token),
        ("intents", .int d.intents),
        ("shard", encodeU32List d.shard),
        ("heartbeat_interval", .int d.heartbeat_interval),
        ("version", .int d.version),
        ("session_id", .str d.session_id),
        ("user", encodeUser d.user)]

/-- Derived serde serializer for the untagged union: each variant serializes
as its content. -/
def encodeUnion : QQBotOperationUnion → Json
  | .Dispatch d => encodeDispatch d
  | .Boolean b => .bool b
  | .Integer n => .int n

/-- Derived serde serializer for `QQBotOperation`. -/
def encodeOperation (e : QQBotOperation) : Json :=
  .obj [("op", .int e.op), ("s", .int e.s), ("t", .str e.t), ("d", encodeUnion e.d)]

/-- The credential provider (`QQBotSecret`), as the session sees it: it only
ever calls `bot_token()`. -/
structure QQBotSecret where
  bot_token : String
deriving Repr, DecidableEq

/-- The session state (`struct QQBotWebsocket`): the stream `wss` is the
transport modelled below by frame inputs and action outputs, `connected` is
never read by the session methods and is omitted. -/
structure QQBotWebsocket where
  key : QQBotSecret
  closed : Bool
  heartbeat_interval : Nat
deriving Repr, DecidableEq

/-- A tungstenite transport message, by kind; only text frames carry data the
session looks at (the JSON value the text parses to, when it parses). -/
inductive Message where
  | text (j : Json) : Message
  | binary : Message
  | ping : Message
  | pong : Message
  | close : Message
  | frame : Message
deriving Repr

/-- The result of `self.wss.next().await`: stream ended (`None`), transport
error (`Some(Err(_))`), or a message (`Some(Ok(m))`). -/
inductive RecvResult where
  | streamEnd : RecvResult
  | transportErr : RecvResult
  | msg (m : Message) : RecvResult
deriving Repr

/-- How a session method finishes: `Ok(())`, an `Err` propagated with `?`, or
a panic (`unreachable!` / an uncovered match arm). -/
inductive Outcome where
  | ok : Outcome
  | err : Outcome
  | panic : Outcome
deriving Repr, DecidableEq

/-- A transport action attempted by a session method. -/
inductive WsAction where
  | recv : WsAction
  | send (j : Json) : WsAction
deriving Repr

/-- One step of a session method: the state afterwards, how the call
finished, and the transport actions it attempted, in order. -/
structure StepResult where
  state : QQBotWebsocket
  result : Outcome
  actions : List WsAction
deriving Repr

/-- `QQBotWebsocket::next_event`, as a function of the current state and of
what `self.wss.next().await` returns. A text frame that fails to parse as a
`QQBotOperation` is the `from_str(&s)?` error path; a close frame sets
`closed`; any other frame kind is `unreachable!` (a panic). The opcode
dispatch follows the source's `match op.op`: 0 and 10 call `dispatched()`
(which has no arm for the `Integer` variant and then fails), 10 overwrites
`heartbeat_interval` with the dispatched body's value, 9 and 11 and unknown
opcodes only log. -/
def next_event (st : QQBotWebsocket) (r : RecvResult) : StepResult :=
  match r with
  | .streamEnd => ⟨st, .ok, [.recv]⟩
  | .transportErr => ⟨st, .err, [.recv]⟩
  | .msg m =>
    match m with
    | .close => ⟨{ st with closed := true }, .ok, [.recv]⟩
    | .text j =>
      match decodeOperation j with
      | none => ⟨st, .err, [.recv]⟩
      | some op =>
        if op.op = 0 then
          match op.dispatched with
          | some _ => ⟨st, .ok, [.recv]⟩
          | none => ⟨st, .panic, [.recv]⟩
        else if op.op = 9 then ⟨st, .ok, [.recv]⟩
        else if op.op = 10 then
          match op.dispatched with
          | some d => ⟨{ st with heartbeat_interval := d.heartbeat_interval }, .ok, [.recv]⟩
          | none => ⟨st, .panic, [.recv]⟩
        else if op.op = 11 then ⟨st, .ok, [.recv]⟩
        else ⟨st, .ok, [.recv]⟩
    | _ => ⟨st, .panic, [.recv]⟩

/-- The envelope `send_heartbeat` builds: `op: 1, s: 0, t: "",
d: Integer(100)` — the integer 100 is a hard-coded placeholder; the session
stores no received sequence number anywhere. -/
def heartbeatEnvelope : QQBotOperation :=
  ⟨1, 0, "", .Integer 100⟩

/-- `QQBotWebsocket::send_heartbeat`: serializes `heartbeatEnvelope` and
sends it as a text frame; the state is not touched. -/
def send_heartbeat (st : QQBotWebsocket) : StepResult :=
  ⟨st, .ok, [.send (encodeOperation heartbeatEnvelope)]⟩

/-- The intent mask hard-coded in `send_identify`:
`1 << 9 | 1 << 10 | 1 << 26 | 1 << 30`. -/
def identifyIntents : Nat :=
  1 <<< 9 ||| 1 <<< 10 ||| 1 <<< 26 ||| 1 <<< 30

/-- The envelope `send_identify` builds: `op: 2`, a `Dispatch` body carrying
the bot token from the credential provider, the hard-coded intents, shard
`[0, 1]`, and `..Default::default()` for the remaining fields (so
`heartbeat_interval` is the struct default 40000). -/
def identifyEnvelope (st : QQBotWebsocket) : QQBotOperation :=
  ⟨2, 0, "",
   .Dispatch ⟨st.key.bot_token, identifyIntents, [0, 1], 40000, 0, "", default⟩⟩

/-- `QQBotWebsocket::send_identify`: serializes `identifyEnvelope` and sends
it as a text frame; the state is not touched. -/
def send_identify (st : QQBotWebsocket) : StepResult :=
  ⟨st, .ok, [.send (encodeOperation (identifyEnvelope st))]⟩

/-- The `Subscription` bitflags (`subscription_mask.rs`), each a `u32` with
one bit set. -/
def Subscription.GUILDS : Nat := 1 <<< 0

/-- `GUILD_MEMBERS = 1 << 1` -/
def Subscription.GUILD_MEMBERS : Nat := 1 <<< 1

/-- `GUILD_MESSAGES = 1 << 9` -/
def Subscription.GUILD_MESSAGES : Nat := 1 <<< 9

/-- `GUILD_MESSAGE_REACTIONS = 1 << 10` -/
def Subscription.GUILD_MESSAGE_REACTIONS : Nat := 1 <<< 10

/-- `DIRECT_MESSAGE = 1 << 12` -/
def Subscription.DIRECT_MESSAGE : Nat := 1 <<< 12

/-- `INTERACTION = 1 << 26` -/
def Subscription.INTERACTION : Nat := 1 <<< 26

/-- `MESSAGE_AUDIT = 1 << 27` -/
def Subscription.MESSAGE_AUDIT : Nat := 1 <<< 27

/-- `FORUMS_EVENT = 1 << 28` -/
def Subscription.FORUMS_EVENT : Nat := 1 <<< 28

/-- `AUDIO_ACTION = 1 << 29` -/
def Subscription.AUDIO_ACTION : Nat := 1 <<< 29

/-- `PUBLIC_GUILD_MESSAGES = 1 << 30` -/
def Subscription.PUBLIC_GUILD_MESSAGES : Nat := 1 <<< 30

/-- Combining a set of `Subscription` categories into a mask, as the
`bitflags` union does: the bitwise OR of the selected values. -/
def Subscription.build (cats : List Nat) : Nat :=
  cats.foldr (fun c acc => c ||| acc) 0

/-- Well-formedness of a `QQBotOperationDispatch` value as Rust's types force
it: every `u32` field in range, `version` in `i64` range. -/
abbrev WFDispatch (d : QQBotOperationDispatch) : Prop :=
  d.intents < 4294967296 ∧ (∀ x ∈ d.shard, x < 4294967296) ∧
    d.heartbeat_interval < 4294967296 ∧
    -9223372036854775808 ≤ d.version ∧ d.version < 9223372036854775808

/-- Well-formedness of a payload union value as Rust's types force it. -/
abbrev WFUnion : QQBotOperationUnion → Prop
  | .Dispatch d => WFDispatch d
  | .Boolean _ => True
  | .Integer n => -2147483648 ≤ n ∧ n < 2147483648

/-- Well-formedness of an envelope as Rust's types force it: exactly the
values constructible through the codec's own constructors. -/
abbrev WFOperation (e : QQBotOperation) : Prop :=
  e.op < 4294967296 ∧ e.s < 4294967296 ∧ WFUnion e.d

/-- `asU32` accepts the encoding of any in-range `u32`. -/
lemma asU32_natCast (n : Nat) (h : n < 4294967296) : asU32 (.int n) = some n := by
  simp [asU32]; omega

/-- `asU32` accepts `Int.ofNat` encodings of in-range `u32`s. -/
lemma asU32_ofNat (n : Nat) (h : n < 4294967296) : asU32 (.int (Int.ofNat n)) = some n := by
  simp [asU32]; omega

/-- `asI32` accepts any in-range `i32`. -/
lemma asI32_int (n : Int) (h1 : -2147483648 ≤ n) (h2 : n < 2147483648) :
    asI32 (.int n) = some n := by
  simp only [asI32]
  rw [if_pos ⟨h1, h2⟩]

/-- `asI64` accepts any in-range `i64`. -/
lemma asI64_int (n : Int) (h1 : -9223372036854775808 ≤ n) (h2 : n < 9223372036854775808) :
    asI64 (.int n) = some n := by
  simp only [asI64]
  rw [if_pos ⟨h1, h2⟩]

/-- Decoding the encoding of a `Vec<u32>` gives it back. -/
lemma asU32List_encodeU32List (l : List Nat) (h : ∀ x ∈ l, x < 4294967296) :
    asU32List (encodeU32List l) = some l := by
  simp only [encodeU32List, asU32List]
  induction l with
  | nil => rfl
  | cons a t ih =>
    simp only [List.map_cons, asU32Elems]
    rw [asU32_ofNat a (h a (List.mem_cons_self a t)),
        ih (fun x hx => h x (List.mem_cons_of_mem a hx))]
    rfl

/-- Decoding the encoding of a `User` gives it back. -/
lemma decodeUser_encodeUser (u : User) : decodeUser (encodeUser u) = some u := by
  obtain ⟨i, un, b⟩ := u
  simp [decodeUser, encodeUser, getField, asStr, asBool]

/-- Decoding the encoding of a well-formed `QQBotOperationDispatch` gives it
back. -/
lemma decodeDispatch_encodeDispatch (d : QQBotOperationDispatch) (h : WFDispatch d) :
    decodeDispatch (encodeDispatch d) = some d := by
  obtain ⟨hi, hsh, hh, hv1, hv2⟩ := h
  obtain ⟨tk, it, sh, hb, ver, sid, u⟩ := d
  simp only at hi hsh hh hv1 hv2
  simp [decodeDispatch, encodeDispatch, getField, fieldD, asStr, asI64,
        asU32_natCast _ hi, asU32_natCast _ hh, asU32List_encodeU32List _ hsh,
        decodeUser_encodeUser, hv1, hv2]

/-- If the first variant (`Dispatch`) type-checks, the untagged union
decoder accepts it, whatever the later variants would do. -/
lemma decodeUnion_of_dispatch (j : Json) (d : QQBotOperationDispatch)
    (h : decodeDispatch j = some d) : decodeUnion j = some (.Dispatch d) := by
  simp only [decodeUnion, h]

/-- If `Dispatch` fails and `Boolean` type-checks, the untagged union decoder
accepts the `Boolean` variant. -/
lemma decodeUnion_of_bool (j : Json) (b : Bool)
    (h1 : decodeDispatch j = none) (h2 : asBool j = some b) :
    decodeUnion j = some (.Boolean b) := by
  simp only [decodeUnion, h1, h2]

/-- If `Dispatch` and `Boolean` both fail and `Integer` type-checks, the
untagged union decoder accepts the `Integer` variant. -/
lemma decodeUnion_of_int (j : Json) (n : Int)
    (h1 : decodeDispatch j = none) (h2 : asBool j = none) (h3 : asI32 j = some n) :
    decodeUnion j = some (.Integer n) := by
  simp only [decodeUnion, h1, h2, h3]

/-- Decoding an envelope object whose four fields each decode. -/
lemma decodeOperation_fields (jop js jt jd : Json) (op s : Nat) (t : String)
    (d : QQBotOperationUnion)
    (h1 : asU32 jop = some op) (h2 : asU32 js = some s) (h3 : asStr jt = some t)
    (h4 : decodeUnion jd = some d) :
    decodeOperation (.obj [("op", jop), ("s", js), ("t", jt), ("d", jd)]) =
      some ⟨op, s, t, d⟩ := by
  simp only [decodeOperation, getField, fieldD]
  simp +decide only []
  simp only [if_true, if_false, h1, h2, h3, h4, Option.bind_eq_bind, Option.some_bind]

/-- Claim C1 counterexample: for a concrete credential, the identify envelope
does carry opcode 2, the bot token, and shard `[0, 1]`, but its intents field
is 1140852224 = 0x44000600, not 0x40000600 as the claim states. -/
theorem c1_counterexample :
    identifyEnvelope ⟨⟨"tok"⟩, false, 40000⟩ =
      ⟨2, 0, "", .Dispatch ⟨"tok", 0x44000600, [0, 1], 40000, 0, "", ⟨"", "", false⟩⟩⟩ ∧
    (0x44000600 : Nat) ≠ 0x40000600 := by
  exact ⟨rfl, by decide⟩

/-- Claim C1, amended: the identify envelope has opcode 2, carries the bot
token obtained from the credential provider, a shard descriptor `[0, 1]`, and
an intents field equal to 0x44000600, the mask of GUILD_MESSAGES,
GUILD_MESSAGE_REACTIONS, INTERACTION and PUBLIC_GUILD_MESSAGES; and
`send_identify` sends exactly that envelope. -/
theorem c1_amended (st : QQBotWebsocket) :
    identifyEnvelope st =
      ⟨2, 0, "", .Dispatch ⟨st.key.bot_token, 0x44000600, [0, 1], 40000, 0, "", default⟩⟩ ∧
    identifyIntents =
      (Subscription.GUILD_MESSAGES ||| Subscription.GUILD_MESSAGE_REACTIONS |||
        Subscription.INTERACTION ||| Subscription.PUBLIC_GUILD_MESSAGES) ∧
    send_identify st = ⟨st, .ok, [.send (encodeOperation (identifyEnvelope st))]⟩ := by
  exact ⟨rfl, by decide, rfl⟩

/-- Claim C2: the untagged payload union is decoded by trying `Dispatch`,
then `Boolean`, then `Integer`, accepting the first variant that
type-checks; and the three concrete frames of the claim decode to the stated
variants. -/
theorem c2_union_decoding :
    (∀ j d, decodeDispatch j = some d → decodeUnion j = some (.Dispatch d)) ∧
    (∀ j b, decodeDispatch j = none → asBool j = some b →
      decodeUnion j = some (.Boolean b)) ∧
    (∀ j n, decodeDispatch j = none → asBool j = none → asI32 j = some n →
      decodeUnion j = some (.Integer n)) ∧
    decodeOperation (.obj [("op", .int 10), ("d", .obj [("heartbeat_interval", .int 45000)])]) =
      some ⟨10, 0, "", .Dispatch ⟨"", 0, [], 45000, 0, "", ⟨"", "", false⟩⟩⟩ ∧
    decodeOperation (.obj [("op", .int 1), ("d", .int 100)]) =
      some ⟨1, 0, "", .Integer 100⟩ ∧
    decodeOperation (.obj [("op", .int 11), ("d", .bool true)]) =
      some ⟨11, 0, "", .Boolean true⟩ := by
  exact ⟨decodeUnion_of_dispatch, decodeUnion_of_bool, decodeUnion_of_int, rfl, rfl, rfl⟩

/-- Claim C2 witness: the ordered-attempt decoding applied at concrete
payloads of each shape. -/
theorem c2_witness :
    decodeUnion (.obj []) = some (.Dispatch ⟨"", 0, [], 0, 0, "", ⟨"", "", false⟩⟩) ∧
    decodeUnion (.bool true) = some (.Boolean true) ∧
    decodeUnion (.int 100) = some (.Integer 100) :=
  ⟨c2_union_decoding.1 _ _ rfl,
   c2_union_decoding.2.1 _ _ rfl rfl,
   c2_union_decoding.2.2.1 _ _ rfl rfl rfl⟩

/-- Claim C3, evaluated at the failing inputs: a ping, pong or binary frame
makes `next_event` panic (`unreachable!`), which aborts the host process; no
recoverable `DecodeError::UnsupportedFrameKind` exists in the code. -/
theorem c3_nontext_panics :
    next_event ⟨⟨"k"⟩, false, 40000⟩ (.msg .ping) =
      ⟨⟨⟨"k"⟩, false, 40000⟩, .panic, [.recv]⟩ ∧
    next_event ⟨⟨"k"⟩, false, 40000⟩ (.msg .pong) =
      ⟨⟨⟨"k"⟩, false, 40000⟩, .panic, [.recv]⟩ ∧
    next_event ⟨⟨"k"⟩, false, 40000⟩ (.msg .binary) =
      ⟨⟨⟨"k"⟩, false, 40000⟩, .panic, [.recv]⟩ := by
  exact ⟨rfl, rfl, rfl⟩

/-- Claim C4 counterexample: a session whose `closed` flag is true, on which
`next_event` still attempts a receive and `send_heartbeat` still attempts a
send — the operations do not guard on `closed`. -/
theorem c4_counterexample :
    (QQBotWebsocket.mk ⟨"k"⟩ true 40000).closed = true ∧
    (next_event ⟨⟨"k"⟩, true, 40000⟩ .streamEnd).actions = [.recv] ∧
    (send_heartbeat ⟨⟨"k"⟩, true, 40000⟩).actions =
      [.send (encodeOperation heartbeatEnvelope)] := by
  exact ⟨rfl, rfl, rfl⟩

/-- Claim C4, amended: `closed` is monotonic — `next_event` never resets it
from true to false, and `send_heartbeat` and `send_identify` never touch the
state at all; but the operations do not themselves check `closed` before
touching the connection, so refraining from further sends and receives once
closed is the caller's responsibility. -/
theorem c4_amended (st : QQBotWebsocket) (r : RecvResult) (h : st.closed = true) :
    (next_event st r).state.closed = true ∧
    (send_heartbeat st).state = st ∧ (send_identify st).state = st := by
  refine ⟨?_, rfl, rfl⟩
  cases r with
  | streamEnd => simpa [next_event] using h
  | transportErr => simpa [next_event] using h
  | msg m =>
    cases m with
    | close => simp [next_event]
    | text j =>
      simp only [next_event]
      cases decodeOperation j with
      | none => simpa using h
      | some op =>
        repeat' split <;> try (first | simpa using h | rfl)
    | binary => simpa [next_event] using h
    | ping => simpa [next_event] using h
    | pong => simpa [next_event] using h
    | frame => simpa [next_event] using h

/-- Claim C4 witness: the amended statement applied at a concrete closed
session. -/
theorem c4_witness :
    (QQBotWebsocket.mk ⟨"k"⟩ true 40000).closed = true ∧
    (next_event ⟨⟨"k"⟩, true, 40000⟩ .streamEnd).state.closed = true ∧
    (send_heartbeat ⟨⟨"k"⟩, true, 40000⟩).state = ⟨⟨"k"⟩, true, 40000⟩ ∧
    (send_identify ⟨⟨"k"⟩, true, 40000⟩).state = ⟨⟨"k"⟩, true, 40000⟩ :=
  ⟨rfl, (c4_amended ⟨⟨"k"⟩, true, 40000⟩ .streamEnd rfl).1,
   (c4_amended ⟨⟨"k"⟩, true, 40000⟩ .streamEnd rfl).2.1,
   (c4_amended ⟨⟨"k"⟩, true, 40000⟩ .streamEnd rfl).2.2⟩

/-- Claim C5 counterexample: a text frame with opcode 0 and an integer
payload makes `next_event` hit the uncovered `Integer` arm of `dispatched()`
and fail, instead of returning without error as the claim states for every
non-hello opcode. -/
theorem c5_counterexample :
    next_event ⟨⟨"k"⟩, false, 40000⟩ (.msg (.text (.obj [("op", .int 0), ("d", .int 100)]))) =
      ⟨⟨⟨"k"⟩, false, 40000⟩, .panic, [.recv]⟩ ∧
    Outcome.panic ≠ Outcome.ok := by
  exact ⟨rfl, by decide⟩

/-- Claim C5, amended: `next_event` writes `heartbeat_interval` only when the
decoded opcode is 10, storing the dispatched body's value there; every text
frame with opcode other than 0 and 10 leaves the state unchanged and returns
without error; opcode 0 does too provided `dispatched()` succeeds on its
payload (an integer payload at opcode 0 instead fails on the uncovered match
arm). -/
theorem c5_amended (st : QQBotWebsocket) (j : Json) (e : QQBotOperation)
    (he : decodeOperation j = some e) :
    (e.op ≠ 10 →
      (next_event st (.msg (.text j))).state.heartbeat_interval = st.heartbeat_interval) ∧
    (e.op ≠ 0 → e.op ≠ 10 → next_event st (.msg (.text j)) = ⟨st, .ok, [.recv]⟩) ∧
    (∀ d, e.op = 0 → e.dispatched = some d →
      next_event st (.msg (.text j)) = ⟨st, .ok, [.recv]⟩) ∧
    (∀ d, e.op = 10 → e.dispatched = some d →
      next_event st (.msg (.text j)) =
        ⟨{ st with heartbeat_interval := d.heartbeat_interval }, .ok, [.recv]⟩) := by
  refine ⟨?_, ?_, ?_, ?_⟩
  · intro h10
    simp only [next_event, he]
    repeat' split <;> try rfl
  · intro h0 h10
    simp only [next_event, he]
    split <;> try rfl
    all_goals simp_all
  · intro d h0 hd
    simp only [next_event, he, h0, hd]
    simp
  · intro d h10 hd
    simp only [next_event, he, h10, hd]
    simp

/-- Claim C5 witness: the amended statement at a concrete unknown opcode 255,
which leaves the session unchanged and returns ok. -/
theorem c5_witness :
    next_event ⟨⟨"k"⟩, false, 40000⟩ (.msg (.text (.obj [("op", .int 255), ("d", .bool true)]))) =
      ⟨⟨⟨"k"⟩, false, 40000⟩, .ok, [.recv]⟩ :=
  (c5_amended ⟨⟨"k"⟩, false, 40000⟩ (.obj [("op", .int 255), ("d", .bool true)])
    ⟨255, 0, "", .Boolean true⟩ rfl).2.1 (by decide) (by decide)

/-- Claim C6: on a close frame in any non-terminal state, `next_event` sets
`closed` to true and returns without error. -/
theorem c6_close_sets_closed (st : QQBotWebsocket) (h : st.closed = false) :
    next_event st (.msg .close) = ⟨{ st with closed := true }, .ok, [.recv]⟩ := by
  rfl

/-- Claim C6 witness: the close-frame transition at a concrete open
session. -/
theorem c6_witness :
    next_event ⟨⟨"k"⟩, false, 40000⟩ (.msg .close) =
      ⟨⟨⟨"k"⟩, true, 40000⟩, .ok, [.recv]⟩ :=
  c6_close_sets_closed ⟨⟨"k"⟩, false, 40000⟩ rfl

/-- Claim C7 counterexample: after the session receives a frame carrying
sequence number 5, `send_heartbeat` still emits `d = 100` — the hard-coded
placeholder, not the last received sequence (the session state stores no
sequence at all). -/
theorem c7_counterexample :
    decodeOperation (.obj [("op", .int 11), ("s", .int 5), ("d", .bool true)]) =
      some ⟨11, 5, "", .Boolean true⟩ ∧
    next_event ⟨⟨"k"⟩, false, 40000⟩
        (.msg (.text (.obj [("op", .int 11), ("s", .int 5), ("d", .bool true)]))) =
      ⟨⟨⟨"k"⟩, false, 40000⟩, .ok, [.recv]⟩ ∧
    send_heartbeat ⟨⟨"k"⟩, false, 40000⟩ =
      ⟨⟨⟨"k"⟩, false, 40000⟩, .ok, [.send (encodeOperation ⟨1, 0, "", .Integer 100⟩)]⟩ ∧
    (100 : Int) ≠ 5 := by
  exact ⟨rfl, rfl, rfl, by decide⟩

/-- Claim C7, amended: every heartbeat frame emitted by `send_heartbeat` has
opcode 1 and a payload `d` equal to the constant integer placeholder 100,
regardless of any received sequence numbers — the session does not track
them. -/
theorem c7_amended (st : QQBotWebsocket) :
    send_heartbeat st = ⟨st, .ok, [.send (encodeOperation heartbeatEnvelope)]⟩ ∧
    heartbeatEnvelope = ⟨1, 0, "", .Integer 100⟩ := by
  exact ⟨rfl, rfl⟩

/-- Claim C8 counterexample: the mask of {GUILD_MESSAGES,
PUBLIC_GUILD_MESSAGES, INTERACTION} is 0x44000200, not 0x40000200 as the
claim states. -/
theorem c8_counterexample :
    Subscription.build
        [Subscription.GUILD_MESSAGES, Subscription.PUBLIC_GUILD_MESSAGES,
         Subscription.INTERACTION] ≠ 0x40000200 := by
  decide

/-- Claim C8, amended: the intent mask of a set of categories is the bitwise
OR of the selected categories' bit values, and the mask of {GUILD_MESSAGES,
PUBLIC_GUILD_MESSAGES, INTERACTION} equals `(1<<9)|(1<<26)|(1<<30)`, which is
0x44000200. -/
theorem c8_amended :
    (∀ c cs, Subscription.build (c :: cs) = c ||| Subscription.build cs) ∧
    Subscription.build
        [Subscription.GUILD_MESSAGES, Subscription.PUBLIC_GUILD_MESSAGES,
         Subscription.INTERACTION] =
      (1 <<< 9) ||| (1 <<< 26) ||| (1 <<< 30) ∧
    ((1 <<< 9) ||| (1 <<< 26) ||| (1 <<< 30) : Nat) = 0x44000200 := by
  exact ⟨fun _ _ => rfl, by decide, by decide⟩

/-- Claim C9: for every envelope constructible through the codec's own
constructors (all Rust-typed values, captured by `WFOperation`), decoding the
encoding yields the original envelope. -/
theorem c9_roundtrip (e : QQBotOperation) (h : WFOperation e) :
    decodeOperation (encodeOperation e) = some e := by
  obtain ⟨hop, hs, hd⟩ := h
  obtain ⟨op, s, t, d⟩ := e
  simp only at hop hs hd
  have hu : decodeUnion (encodeUnion d) = some d := by
    cases d with
    | Dispatch dd =>
      exact decodeUnion_of_dispatch _ _ (decodeDispatch_encodeDispatch dd hd)
    | Boolean b => exact decodeUnion_of_bool _ _ rfl rfl
    | Integer n => exact decodeUnion_of_int _ _ rfl rfl (asI32_int n hd.1 hd.2)
  exact decodeOperation_fields _ _ _ _ _ _ _ _
    (asU32_natCast _ hop) (asU32_natCast _ hs) rfl hu

/-- Claim C9 witness: the round trip at a concrete dispatch-carrying
envelope. -/
theorem c9_witness :
    WFOperation ⟨10, 3, "READY", .Dispatch ⟨"tok", 7, [0, 1], 45000, -1, "sid", ⟨"i", "u", true⟩⟩⟩ ∧
    decodeOperation (encodeOperation
        ⟨10, 3, "READY", .Dispatch ⟨"tok", 7, [0, 1], 45000, -1, "sid", ⟨"i", "u", true⟩⟩⟩) =
      some ⟨10, 3, "READY", .Dispatch ⟨"tok", 7, [0, 1], 45000, -1, "sid", ⟨"i", "u", true⟩⟩⟩ :=
  ⟨by decide, c9_roundtrip _ (by decide)⟩

/-- Claim C10: `dispatched()` is not total over the payload union: the
`Dispatch` variant projects to its body, the `Boolean` variant falls back to
the struct default (empty token, intents 0, heartbeat_interval 40000, empty
session id, default user), and the `Integer` variant is not covered by the
match, so it has no defined result. -/
theorem c10_dispatched_partial :
    (∀ (o sq : Nat) (t : String) (d : QQBotOperationDispatch),
      (QQBotOperation.mk o sq t (.Dispatch d)).dispatched = some d) ∧
    (∀ (o sq : Nat) (t : String) (b : Bool),
      (QQBotOperation.mk o sq t (.Boolean b)).dispatched =
        some ⟨"", 0, [], 40000, 0, "", ⟨"", "", false⟩⟩) ∧
    (∀ (o sq : Nat) (t : String) (n : Int),
      (QQBotOperation.mk o sq t (.Integer n)).dispatched = none) := by
  exact ⟨fun _ _ _ _ => rfl, fun _ _ _ _ => rfl, fun _ _ _ _ => rfl⟩
